import Mathlib

/-!
# Order placement handler (`main.go`)

A shallow embedding of `placeOrderHandler` and `handleTransactionError`.

The handler is sequential code over an external transactional store.  It is
embedded as a function on an explicit `World`: the committed store, the
session and transaction state of the request, the identifier generator and
the log of calls made and responses written.  Which external call fails is an
input (`Faults`), as are the outcome of request binding and the clock.

Assumptions on the store, which is not part of the repository:

* writes issued inside a transaction go to a working copy that starts as a
  snapshot of the committed state; a successful commit publishes the working
  copy, an abort (or the end of the session) discards it;
* a call that returns an error writes nothing;
* balances are 64-bit integers, and an increment whose result is not
  representable is rejected with an error instead of being applied;
* requests are served one at a time (no concurrent writer).

Go `int` is 64 bits wide; the only arithmetic of the handler is the negation
`-orderAmount`, embedded with explicit wraparound.
-/

namespace OrderService

/-! ## Go integers -/

/-- Smallest Go `int` (64-bit): `-2^63`. -/
def minInt : Int := -9223372036854775808

/-- Largest Go `int` (64-bit): `2^63 - 1`. -/
def maxInt : Int := 9223372036854775807

/-- The value is representable as a Go `int`. -/
def isGoInt (n : Int) : Prop := minInt ≤ n ∧ n ≤ maxInt

instance (n : Int) : Decidable (isGoInt n) := by
  unfold isGoInt
  exact inferInstance

/-- Two's complement reduction of an integer to a Go `int`. -/
def wrapInt (n : Int) : Int := (n - minInt) % 18446744073709551616 + minInt

/-- Go unary minus on `int`: `-x`, wrapping at 64 bits. -/
def goNeg (x : Int) : Int := wrapInt (-x)

/-! ## Data model -/

/-- Stand-in for `primitive.ObjectID`. -/
abbrev ObjectID := Nat

/-- Go struct `User`. -/
structure User where
  ID : ObjectID
  Name : String
  Balance : Int
deriving DecidableEq, Repr

/-- Go struct `Order`; `DateTime` is a clock reading. -/
structure Order where
  ID : ObjectID
  UserID : ObjectID
  Amount : Int
  DateTime : Nat
deriving DecidableEq, Repr

/-- Go struct `PlaceOrderRequest`. -/
structure PlaceOrderRequest where
  UserID : ObjectID
  Amount : Int
deriving DecidableEq, Repr

/-- The two collections of the database, `users` and `orders`. -/
structure Store where
  users : List User
  orders : List Order
deriving DecidableEq, Repr

/-! ## Calls and responses -/

/-- One entry of the log: a call on the store driver with its error result
(`none` is Go `nil`), or a response written with `c.JSON`. -/
inductive Event
  | startSession (err : Option String)
  | startTransaction (err : Option String)
  | updateOne (filter : ObjectID) (delta : Int) (err : Option String)
  | insertOne (doc : Order) (err : Option String)
  | commitTransaction (err : Option String)
  | abortTransaction
  | endSession
  | json (status : Nat) (key : String) (msg : String)
deriving DecidableEq, Repr

/-- Injected faults: for each fallible driver call, the error it returns
(`none`: the driver reports no error of its own). -/
structure Faults where
  startSession : Option String
  startTransaction : Option String
  updateOne : Option String
  insertOne : Option String
  commitTransaction : Option String
deriving DecidableEq, Repr

/-- No injected fault. -/
def noFaults : Faults := ⟨.none, .none, .none, .none, .none⟩

/-- Inputs of one request: the result of `c.ShouldBindJSON`, the faults of the
store calls and the reading of `time.Now()`. -/
structure Env where
  body : Except String PlaceOrderRequest
  faults : Faults
  now : Nat

/-- State threaded through the handler.  `txn` is the working copy of the
active transaction (its pending writes applied to the snapshot taken at
`StartTransaction`); `committed` is what other readers see. -/
structure World where
  committed : Store
  sessionOpen : Bool
  txn : Option Store
  nextOid : ObjectID
  trace : List Event

/-- World at the entry of a request: no session, no transaction, empty log. -/
def World.init (s : Store) (oid : ObjectID) : World :=
  ⟨s, false, .none, oid, []⟩

/-! ## The store (external collaborator) -/

/-- Increment of the `balance` field (`$inc`) on the first document whose
`_id` matches.  No match leaves the collection unchanged and is not an error.
The store keeps 64-bit integers and rejects an increment whose result is not
representable. -/
def incBalance : List User → ObjectID → Int → Except String (List User)
  | [], _, _ => .ok []
  | u :: us, id, delta =>
    if u.ID = id then
      if isGoInt (u.Balance + delta) then
        .ok ({ u with Balance := u.Balance + delta } :: us)
      else
        .error "Failed to apply $inc operations to current value"
    else
      match incBalance us id delta with
      | .ok us' => .ok (u :: us')
      | .error e => .error e

/-- Append an event to the log. -/
def World.log (w : World) (e : Event) : World :=
  { w with trace := w.trace ++ [e] }

/-- Driver call `client.StartSession()`. -/
def World.startSession (w : World) (f : Option String) : Option String × World :=
  match f with
  | some e => (some e, w.log (.startSession (some e)))
  | .none => (.none, { w.log (.startSession .none) with sessionOpen := true })

/-- Driver call `session.StartTransaction(...)`: on success the transaction
works on a snapshot of the committed state. -/
def World.startTransaction (w : World) (f : Option String) : Option String × World :=
  match f with
  | some e => (some e, w.log (.startTransaction (some e)))
  | .none => (.none, { w.log (.startTransaction .none) with txn := some w.committed })

/-- Driver call `userCollection.UpdateOne(sessionContext, {_id: id}, {$inc: {balance: delta}})`.
Inside a transaction the write goes to the working copy, otherwise straight to
the committed state.  A failed call writes nothing. -/
def World.updateOne (w : World) (f : Option String) (id : ObjectID) (delta : Int) :
    Option String × World :=
  match f with
  | some e => (some e, w.log (.updateOne id delta (some e)))
  | .none =>
    match w.txn with
    | some s =>
      match incBalance s.users id delta with
      | .ok us => (.none, { w.log (.updateOne id delta .none) with txn := some { s with users := us } })
      | .error e => (some e, w.log (.updateOne id delta (some e)))
    | .none =>
      match incBalance w.committed.users id delta with
      | .ok us =>
        (.none, { w.log (.updateOne id delta .none) with committed := { w.committed with users := us } })
      | .error e => (some e, w.log (.updateOne id delta (some e)))

/-- Driver call `orderCollection.InsertOne(sessionContext, order)`.  The
document carries no `_id` (zero value, `omitempty`), so a fresh identifier is
generated for it. -/
def World.insertOne (w : World) (f : Option String) (doc : Order) : Option String × World :=
  let doc' : Order := { doc with ID := w.nextOid }
  let w1 : World := { w with nextOid := w.nextOid + 1 }
  match f with
  | some e => (some e, w1.log (.insertOne doc' (some e)))
  | .none =>
    match w1.txn with
    | some s =>
      (.none, { w1.log (.insertOne doc' .none) with txn := some { s with orders := s.orders ++ [doc'] } })
    | .none =>
      (.none, { w1.log (.insertOne doc' .none) with
                  committed := { w1.committed with orders := w1.committed.orders ++ [doc'] } })

/-- Driver call `session.CommitTransaction(ctx)`: on success the working copy
becomes the committed state. -/
def World.commitTransaction (w : World) (f : Option String) : Option String × World :=
  match f with
  | some e => (some e, w.log (.commitTransaction (some e)))
  | .none =>
    match w.txn with
    | some s => (.none, { w.log (.commitTransaction .none) with committed := s, txn := .none })
    | .none => (some "no transaction started", w.log (.commitTransaction (some "no transaction started")))

/-- Driver call `session.AbortTransaction(ctx)`: the pending writes are
discarded.  The handler ignores its result. -/
def World.abortTransaction (w : World) : World :=
  { w.log .abortTransaction with txn := .none }

/-- Driver call `session.EndSession(ctx)`: releases the session; a transaction
still in progress is dropped. -/
def World.endSession (w : World) : World :=
  { w.log .endSession with sessionOpen := false, txn := .none }

/-- Response `c.JSON(status, gin.H{key: msg})`. -/
def World.json (w : World) (status : Nat) (key msg : String) : World :=
  w.log (.json status key msg)

/-! ## The handler -/

/-- Go `handleTransactionError`: abort, then write the 500 response. -/
def handleTransactionError (w : World) (errorMsg : String) : World :=
  let w := w.abortTransaction
  w.json 500 "error" errorMsg

/-- Body of `placeOrderHandler` after `defer session.EndSession(...)` has been
registered (source lines 75 to 123).  `sessionContext` only ties the calls to
the session and has no counterpart here. -/
def placeOrderBody (env : Env) (orderRequest : PlaceOrderRequest) (w : World) : World :=
  match w.startTransaction env.faults.startTransaction with
  | (some _, w) => w.json 500 "error" "Failed to start transaction"
  | (.none, w) =>
    let userID := orderRequest.UserID
    let orderAmount := orderRequest.Amount
    match w.updateOne env.faults.updateOne userID (goNeg orderAmount) with
    | (some err, w) =>
      handleTransactionError w ("Failed to update user balance: " ++ err)
    | (.none, w) =>
      let order : Order := { ID := 0, UserID := userID, Amount := orderAmount, DateTime := env.now }
      match w.insertOne env.faults.insertOne order with
      | (some _, w) => handleTransactionError w "Failed to create order"
      | (.none, w) =>
        match w.commitTransaction env.faults.commitTransaction with
        | (some _, w) => handleTransactionError w "Failed to commit transaction"
        | (.none, w) => w.json 200 "message" "Order placed successfully"

/-- Go `placeOrderHandler`. -/
def placeOrderHandler (env : Env) (w : World) : World :=
  match env.body with
  | .error e => w.json 400 "error" e
  | .ok orderRequest =>
    match w.startSession env.faults.startSession with
    | (some _, w) => w.json 500 "error" "Failed to start session"
    | (.none, w) =>
      -- `defer session.EndSession(...)` runs when the function returns
      (placeOrderBody env orderRequest w).endSession

/-- One request served on a fresh session against store `s`. -/
def run (env : Env) (s : Store) (oid : ObjectID) : World :=
  placeOrderHandler env (World.init s oid)


/-! ## Observations on a run -/

/-- The fallible steps of the protocol, in the order the handler takes them. -/
inductive Step
  | startSession
  | startTransaction
  | debit
  | insert
  | commit
deriving DecidableEq, Repr

/-- The protocol step a logged call belongs to. -/
def Event.step : Event → Option Step
  | .startSession _ => some .startSession
  | .startTransaction _ => some .startTransaction
  | .updateOne _ _ _ => some .debit
  | .insertOne _ _ => some .insert
  | .commitTransaction _ => some .commit
  | _ => .none

/-- The error a logged call returned. -/
def Event.err : Event → Option String
  | .startSession e => e
  | .startTransaction e => e
  | .updateOne _ _ e => e
  | .insertOne _ e => e
  | .commitTransaction e => e
  | _ => .none

/-- The step was attempted and returned an error. -/
def failed (tr : List Event) (st : Step) : Bool :=
  tr.any fun e => decide (e.step = some st) && e.err.isSome

/-- The step was attempted and returned no error. -/
def succeeded (tr : List Event) (st : Step) : Bool :=
  tr.any fun e => decide (e.step = some st) && e.err.isNone

/-- The first failed step of a run, with the text of its error. -/
def firstFailure : List Event → Option (Step × String)
  | [] => .none
  | e :: es =>
    match e.step, e.err with
    | some st, some msg => some (st, msg)
    | _, _ => firstFailure es

/-- The events that follow the first failed call. -/
def afterFailure : List Event → List Event
  | [] => []
  | e :: es => if e.err.isSome then es else afterFailure es

/-- The responses written, in order: status, key and message. -/
def responses : List Event → List (Nat × String × String)
  | [] => []
  | .json st k m :: es => (st, k, m) :: responses es
  | _ :: es => responses es

/-- Status of the first response written. -/
def status (w : World) : Option Nat :=
  (responses w.trace).head?.map Prod.fst

/-- Number of `AbortTransaction` calls. -/
def countAbort : List Event → Nat
  | [] => 0
  | .abortTransaction :: es => countAbort es + 1
  | _ :: es => countAbort es

/-- Number of `EndSession` calls. -/
def countEndSession : List Event → Nat
  | [] => 0
  | .endSession :: es => countEndSession es + 1
  | _ :: es => countEndSession es

/-- The delta of the first balance increment issued. -/
def passedDelta : List Event → Option Int
  | [] => .none
  | .updateOne _ d _ :: _ => some d
  | _ :: es => passedDelta es

/-- Balance of the first user document with the given `_id`. -/
def balanceOf : List User → ObjectID → Option Int
  | [], _ => .none
  | u :: us, id => if u.ID = id then some u.Balance else balanceOf us id

/-- The claimed effect of a debit: the first user document with the given
`_id` has its balance decreased by `amount`, everything else is unchanged. -/
def debitFirst : List User → ObjectID → Int → List User
  | [], _, _ => []
  | u :: us, id, amount =>
    if u.ID = id then { u with Balance := u.Balance - amount } :: us
    else u :: debitFirst us id amount

/-- The order document the handler inserts, with the identifier it receives. -/
def newOrder (env : Env) (r : PlaceOrderRequest) (oid : ObjectID) : Order :=
  { ID := oid, UserID := r.UserID, Amount := r.Amount, DateTime := env.now }

/-- The claimed committed state after a successful placement. -/
def placed (s : Store) (env : Env) (r : PlaceOrderRequest) (oid : ObjectID) : Store :=
  { users := debitFirst s.users r.UserID r.Amount,
    orders := s.orders ++ [newOrder env r oid] }

/-- States of the protocol state machine of the specification. -/
inductive Phase
  | Idle
  | SessionOpen
  | TransactionActive
  | DebitApplied
  | OrderInserted
  | Committed
  | Aborted
deriving DecidableEq, Repr

/-- Transition of the protocol state machine on a logged call:
`Idle → SessionOpen → TransactionActive → DebitApplied → OrderInserted → Committed`
on the successful calls, and `Aborted` from an active transaction on
`AbortTransaction`.  Every other event leaves the state where it is. -/
def Phase.step : Phase → Event → Phase
  | .Idle, .startSession .none => .SessionOpen
  | .SessionOpen, .startTransaction .none => .TransactionActive
  | .TransactionActive, .updateOne _ _ .none => .DebitApplied
  | .DebitApplied, .insertOne _ .none => .OrderInserted
  | .OrderInserted, .commitTransaction .none => .Committed
  | .TransactionActive, .abortTransaction => .Aborted
  | .DebitApplied, .abortTransaction => .Aborted
  | .OrderInserted, .abortTransaction => .Aborted
  | p, _ => p

/-- State the protocol is in after a log of calls, starting from `Idle`. -/
def phaseAfter (tr : List Event) : Phase :=
  tr.foldl Phase.step .Idle

/-! ## Sample inputs -/

/-- A store with one user of balance 0. -/
def storeZero : Store := ⟨[⟨1, "u", 0⟩], []⟩

/-- A store with one user of balance 10. -/
def storeTen : Store := ⟨[⟨1, "u", 10⟩], []⟩

/-- A well-formed request with no fault. -/
def envOk (uid : ObjectID) (amount : Int) : Env := ⟨.ok ⟨uid, amount⟩, noFaults, 7⟩

/-- A well-formed request whose debit fails with the given store error. -/
def envDebitFault (e : String) : Env :=
  ⟨.ok ⟨1, 5⟩, ⟨.none, .none, some e, .none, .none⟩, 7⟩

/-- A well-formed request for which the transaction cannot be started. -/
def envTxnFault : Env :=
  ⟨.ok ⟨1, 5⟩, ⟨.none, some "busy", .none, .none, .none⟩, 7⟩

/-! ## The paths of the handler -/

/-- Path 1: the body does not parse; nothing but the 400 response happens. -/
theorem run_bindErr (env : Env) (s : Store) (oid : ObjectID) (e : String)
    (hb : env.body = .error e) :
    run env s oid = ⟨s, false, .none, oid, [.json 400 "error" e]⟩ := by
  simp [run, placeOrderHandler, hb, World.json, World.log, World.init]

/-- Path 2: `StartSession` fails; no session is opened, hence none is ended. -/
theorem run_sessionErr (env : Env) (s : Store) (oid : ObjectID) (r : PlaceOrderRequest)
    (e : String) (hb : env.body = .ok r) (h1 : env.faults.startSession = some e) :
    run env s oid = ⟨s, false, .none, oid,
      [.startSession (some e), .json 500 "error" "Failed to start session"]⟩ := by
  simp [run, placeOrderHandler, hb, h1, World.startSession, World.json, World.log, World.init]

/-- Path 3: `StartTransaction` fails; the handler answers and returns without aborting. -/
theorem run_txnErr (env : Env) (s : Store) (oid : ObjectID) (r : PlaceOrderRequest)
    (e : String) (hb : env.body = .ok r) (h1 : env.faults.startSession = .none)
    (h2 : env.faults.startTransaction = some e) :
    run env s oid = ⟨s, false, .none, oid,
      [.startSession .none, .startTransaction (some e),
       .json 500 "error" "Failed to start transaction", .endSession]⟩ := by
  simp [run, placeOrderHandler, placeOrderBody, hb, h1, h2, World.startSession,
    World.startTransaction, World.endSession, World.json, World.log, World.init]

/-- Path 4a: `UpdateOne` fails with an injected error. -/
theorem run_debitFault (env : Env) (s : Store) (oid : ObjectID) (r : PlaceOrderRequest)
    (e : String) (hb : env.body = .ok r) (h1 : env.faults.startSession = .none)
    (h2 : env.faults.startTransaction = .none) (h3 : env.faults.updateOne = some e) :
    run env s oid = ⟨s, false, .none, oid,
      [.startSession .none, .startTransaction .none,
       .updateOne r.UserID (goNeg r.Amount) (some e), .abortTransaction,
       .json 500 "error" ("Failed to update user balance: " ++ e), .endSession]⟩ := by
  simp [run, placeOrderHandler, placeOrderBody, handleTransactionError, hb, h1, h2, h3,
    World.startSession, World.startTransaction, World.updateOne, World.abortTransaction,
    World.endSession, World.json, World.log, World.init]

/-- Path 4b: `UpdateOne` fails because the store rejects the increment. -/
theorem run_debitReject (env : Env) (s : Store) (oid : ObjectID) (r : PlaceOrderRequest)
    (e : String) (hb : env.body = .ok r) (h1 : env.faults.startSession = .none)
    (h2 : env.faults.startTransaction = .none) (h3 : env.faults.updateOne = .none)
    (hi : incBalance s.users r.UserID (goNeg r.Amount) = .error e) :
    run env s oid = ⟨s, false, .none, oid,
      [.startSession .none, .startTransaction .none,
       .updateOne r.UserID (goNeg r.Amount) (some e), .abortTransaction,
       .json 500 "error" ("Failed to update user balance: " ++ e), .endSession]⟩ := by
  simp [run, placeOrderHandler, placeOrderBody, handleTransactionError, hb, h1, h2, h3, hi,
    World.startSession, World.startTransaction, World.updateOne, World.abortTransaction,
    World.endSession, World.json, World.log, World.init]

/-- Path 5: `InsertOne` fails after an accepted debit. -/
theorem run_insertErr (env : Env) (s : Store) (oid : ObjectID) (r : PlaceOrderRequest)
    (us : List User) (e : String) (hb : env.body = .ok r)
    (h1 : env.faults.startSession = .none)
    (h2 : env.faults.startTransaction = .none) (h3 : env.faults.updateOne = .none)
    (hi : incBalance s.users r.UserID (goNeg r.Amount) = .ok us)
    (h4 : env.faults.insertOne = some e) :
    run env s oid = ⟨s, false, .none, oid + 1,
      [.startSession .none, .startTransaction .none,
       .updateOne r.UserID (goNeg r.Amount) .none, .insertOne (newOrder env r oid) (some e),
       .abortTransaction, .json 500 "error" "Failed to create order", .endSession]⟩ := by
  simp [run, placeOrderHandler, placeOrderBody, handleTransactionError, hb, h1, h2, h3, hi, h4,
    World.startSession, World.startTransaction, World.updateOne, World.insertOne,
    World.abortTransaction, World.endSession, World.json, World.log, World.init, newOrder]

/-- Path 6: `CommitTransaction` fails after debit and insert. -/
theorem run_commitErr (env : Env) (s : Store) (oid : ObjectID) (r : PlaceOrderRequest)
    (us : List User) (e : String) (hb : env.body = .ok r)
    (h1 : env.faults.startSession = .none)
    (h2 : env.faults.startTransaction = .none) (h3 : env.faults.updateOne = .none)
    (hi : incBalance s.users r.UserID (goNeg r.Amount) = .ok us)
    (h4 : env.faults.insertOne = .none) (h5 : env.faults.commitTransaction = some e) :
    run env s oid = ⟨s, false, .none, oid + 1,
      [.startSession .none, .startTransaction .none,
       .updateOne r.UserID (goNeg r.Amount) .none, .insertOne (newOrder env r oid) .none,
       .commitTransaction (some e),
       .abortTransaction, .json 500 "error" "Failed to commit transaction", .endSession]⟩ := by
  simp [run, placeOrderHandler, placeOrderBody, handleTransactionError, hb, h1, h2, h3, hi, h4,
    h5, World.startSession, World.startTransaction, World.updateOne, World.insertOne,
    World.commitTransaction,
    World.abortTransaction, World.endSession, World.json, World.log, World.init, newOrder]

/-- Path 7: every call succeeds and the working copy is committed. -/
theorem run_success (env : Env) (s : Store) (oid : ObjectID) (r : PlaceOrderRequest)
    (us : List User) (hb : env.body = .ok r)
    (h1 : env.faults.startSession = .none)
    (h2 : env.faults.startTransaction = .none) (h3 : env.faults.updateOne = .none)
    (hi : incBalance s.users r.UserID (goNeg r.Amount) = .ok us)
    (h4 : env.faults.insertOne = .none) (h5 : env.faults.commitTransaction = .none) :
    run env s oid = ⟨⟨us, s.orders ++ [newOrder env r oid]⟩, false, .none, oid + 1,
      [.startSession .none, .startTransaction .none,
       .updateOne r.UserID (goNeg r.Amount) .none, .insertOne (newOrder env r oid) .none,
       .commitTransaction .none,
       .json 200 "message" "Order placed successfully", .endSession]⟩ := by
  simp [run, placeOrderHandler, placeOrderBody, handleTransactionError, hb, h1, h2, h3, hi, h4,
    h5, World.startSession, World.startTransaction, World.updateOne, World.insertOne,
    World.commitTransaction,
    World.abortTransaction, World.endSession, World.json, World.log, World.init, newOrder]


/-- Every run takes one of the seven paths of the handler. -/
theorem run_cases (env : Env) (s : Store) (oid : ObjectID) :
    (∃ e, env.body = .error e ∧
      run env s oid = ⟨s, false, .none, oid, [.json 400 "error" e]⟩) ∨
    (∃ r e, env.body = .ok r ∧
      run env s oid = ⟨s, false, .none, oid,
        [.startSession (some e), .json 500 "error" "Failed to start session"]⟩) ∨
    (∃ r e, env.body = .ok r ∧
      run env s oid = ⟨s, false, .none, oid,
        [.startSession .none, .startTransaction (some e),
         .json 500 "error" "Failed to start transaction", .endSession]⟩) ∨
    (∃ r e, env.body = .ok r ∧
      run env s oid = ⟨s, false, .none, oid,
        [.startSession .none, .startTransaction .none,
         .updateOne r.UserID (goNeg r.Amount) (some e), .abortTransaction,
         .json 500 "error" ("Failed to update user balance: " ++ e), .endSession]⟩) ∨
    (∃ r e, env.body = .ok r ∧
      run env s oid = ⟨s, false, .none, oid + 1,
        [.startSession .none, .startTransaction .none,
         .updateOne r.UserID (goNeg r.Amount) .none, .insertOne (newOrder env r oid) (some e),
         .abortTransaction, .json 500 "error" "Failed to create order", .endSession]⟩) ∨
    (∃ r e, env.body = .ok r ∧
      run env s oid = ⟨s, false, .none, oid + 1,
        [.startSession .none, .startTransaction .none,
         .updateOne r.UserID (goNeg r.Amount) .none, .insertOne (newOrder env r oid) .none,
         .commitTransaction (some e),
         .abortTransaction, .json 500 "error" "Failed to commit transaction", .endSession]⟩) ∨
    (∃ r us, env.body = .ok r ∧ incBalance s.users r.UserID (goNeg r.Amount) = .ok us ∧
      run env s oid = ⟨⟨us, s.orders ++ [newOrder env r oid]⟩, false, .none, oid + 1,
        [.startSession .none, .startTransaction .none,
         .updateOne r.UserID (goNeg r.Amount) .none, .insertOne (newOrder env r oid) .none,
         .commitTransaction .none,
         .json 200 "message" "Order placed successfully", .endSession]⟩) := by
  cases hb : env.body with
  | error e => exact Or.inl ⟨e, rfl, run_bindErr env s oid e hb⟩
  | ok r =>
    right
    cases h1 : env.faults.startSession with
    | some e => exact Or.inl ⟨r, e, rfl, run_sessionErr env s oid r e hb h1⟩
    | none =>
      right
      cases h2 : env.faults.startTransaction with
      | some e => exact Or.inl ⟨r, e, rfl, run_txnErr env s oid r e hb h1 h2⟩
      | none =>
        right
        cases h3 : env.faults.updateOne with
        | some e => exact Or.inl ⟨r, e, rfl, run_debitFault env s oid r e hb h1 h2 h3⟩
        | none =>
          cases hi : incBalance s.users r.UserID (goNeg r.Amount) with
          | error e => exact Or.inl ⟨r, e, rfl, run_debitReject env s oid r e hb h1 h2 h3 hi⟩
          | ok us =>
            right
            cases h4 : env.faults.insertOne with
            | some e => exact Or.inl ⟨r, e, rfl, run_insertErr env s oid r us e hb h1 h2 h3 hi h4⟩
            | none =>
              right
              cases h5 : env.faults.commitTransaction with
              | some e =>
                exact Or.inl ⟨r, e, rfl, run_commitErr env s oid r us e hb h1 h2 h3 hi h4 h5⟩
              | none =>
                exact Or.inr ⟨r, us, rfl, hi, run_success env s oid r us hb h1 h2 h3 hi h4 h5⟩

/-- Away from the minimum, Go negation is the integer negation. -/
theorem goNeg_eq_neg (a : Int) (h : isGoInt a) (hm : a ≠ minInt) : goNeg a = -a := by
  unfold isGoInt minInt maxInt at h
  unfold minInt at hm
  unfold goNeg wrapInt minInt
  omega

/-- An accepted increment is a debit of the opposite amount. -/
theorem incBalance_ok_debit (us us' : List User) (id : ObjectID) (d : Int)
    (h : incBalance us id d = .ok us') : us' = debitFirst us id (-d) := by
  induction us generalizing us' with
  | nil =>
    simp [incBalance] at h
    simp [debitFirst, h]
  | cons u rest ih =>
    unfold incBalance at h
    unfold debitFirst
    by_cases hu : u.ID = id
    · simp only [hu, if_true] at h ⊢
      by_cases hr : isGoInt (u.Balance + d)
      · simp only [hr, if_true] at h
        injection h with h
        rw [← h]
        simp [sub_neg_eq_add]
      · simp [hr] at h
    · simp only [hu, if_false] at h ⊢
      cases hi : incBalance rest id d with
      | error e => simp [hi] at h
      | ok us2 =>
        simp only [hi] at h
        injection h with h
        rw [← h, ih us2 hi]

/-- An accepted increment moves the balance of the matched user by the delta,
and the new balance is a 64-bit integer. -/
theorem incBalance_balance (us us' : List User) (id : ObjectID) (d b : Int)
    (hb : balanceOf us id = some b) (h : incBalance us id d = .ok us') :
    isGoInt (b + d) ∧ balanceOf us' id = some (b + d) := by
  induction us generalizing us' with
  | nil => simp [balanceOf] at hb
  | cons u rest ih =>
    unfold incBalance at h
    unfold balanceOf at hb
    by_cases hu : u.ID = id
    · simp only [hu, if_true] at h hb
      injection hb with hb
      subst hb
      by_cases hr : isGoInt (u.Balance + d)
      · simp only [hr, if_true] at h
        injection h with h
        rw [← h]
        exact ⟨hr, by simp [balanceOf, hu]⟩
      · simp [hr] at h
    · simp only [hu, if_false] at h hb
      cases hi : incBalance rest id d with
      | error e => simp [hi] at h
      | ok us2 =>
        simp only [hi] at h
        injection h with h
        rw [← h]
        have := ih us2 hb hi
        exact ⟨this.1, by simp [balanceOf, hu, this.2]⟩

/-- An increment that matches no document changes nothing and is accepted. -/
theorem incBalance_no_match (us : List User) (id : ObjectID) (d : Int)
    (h : ∀ u ∈ us, u.ID ≠ id) : incBalance us id d = .ok us := by
  induction us with
  | nil => rfl
  | cons u rest ih =>
    unfold incBalance
    have hu : u.ID ≠ id := h u (List.mem_cons_self _ _)
    have hrest : ∀ v ∈ rest, v.ID ≠ id := fun v hv => h v (List.mem_cons_of_mem _ hv)
    simp [hu, ih hrest]

/-! ## Claims -/

/-- C1 (counterexample): the request `(user 1, amount -2^63)` on a store where
user 1 has balance 0 is answered with success, yet the committed balance is
`-2^63` and not the initial balance decreased by the amount (`2^63`). -/
theorem atomicity_counterexample :
    status (run (envOk 1 minInt) storeZero 0) = some 200 ∧
    balanceOf (run (envOk 1 minInt) storeZero 0).committed.users 1 = some minInt ∧
    balanceOf (placed storeZero (envOk 1 minInt) ⟨1, minInt⟩ 0).users 1
      = some 9223372036854775808 ∧
    (run (envOk 1 minInt) storeZero 0).committed
      ≠ placed storeZero (envOk 1 minInt) ⟨1, minInt⟩ 0 := by
  decide

/-- C1 (amended): for every initial store, request and choice of failing
calls, a run that does not answer 200 leaves the committed state equal to the
initial one, and a run that answers 200 for an amount other than `-2^63`
commits exactly the initial state with the user's balance decreased by the
amount and one new order `(userID, amount)` appended. -/
theorem atomicity_all_or_nothing (env : Env) (s : Store) (oid : ObjectID) :
    (status (run env s oid) ≠ some 200 → (run env s oid).committed = s) ∧
    (∀ r, env.body = .ok r → isGoInt r.Amount → r.Amount ≠ minInt →
      status (run env s oid) = some 200 →
      (run env s oid).committed = placed s env r oid) := by
  rcases run_cases env s oid with ⟨e, hb, h⟩ | ⟨r, e, hb, h⟩ | ⟨r, e, hb, h⟩ | ⟨r, e, hb, h⟩ |
    ⟨r, e, hb, h⟩ | ⟨r, e, hb, h⟩ | ⟨r, us, hb, hi, h⟩
  all_goals rw [h]
  all_goals try (simp [status, responses, hb]; done)
  refine ⟨by simp [status, responses], ?_⟩
  intro r2 hr2 hg hm _
  rw [hb] at hr2
  injection hr2 with hr2
  subst hr2
  have hd := incBalance_ok_debit _ _ _ _ hi
  rw [goNeg_eq_neg _ hg hm, neg_neg] at hd
  simp [placed, hd]

/-- C1 (witness): user 1 with balance 10 orders 50 with no fault. -/
theorem atomicity_all_or_nothing_witness :
    (run (envOk 1 50) storeTen 0).committed = placed storeTen (envOk 1 50) ⟨1, 50⟩ 0 :=
  (atomicity_all_or_nothing (envOk 1 50) storeTen 0).2 ⟨1, 50⟩ rfl (by decide) (by decide)
    (by decide)

/-- C2: in every run in which the debit, the insert or the commit fails,
`AbortTransaction` is called exactly once, and what follows the failed call is
exactly the abort, then the 500 response, then the deferred `EndSession` (no
further store operation, no retry); in the run where the three succeed it is
never called. -/
theorem abort_once_before_failure_response (env : Env) (s : Store) (oid : ObjectID) :
    ((failed (run env s oid).trace .debit = true ∨ failed (run env s oid).trace .insert = true ∨
        failed (run env s oid).trace .commit = true) →
      countAbort (run env s oid).trace = 1 ∧
      ∃ msg, afterFailure (run env s oid).trace
          = [.abortTransaction, .json 500 "error" msg, .endSession] ∧
        responses (run env s oid).trace = [(500, "error", msg)]) ∧
    ((succeeded (run env s oid).trace .debit = true ∧
        succeeded (run env s oid).trace .insert = true ∧
        succeeded (run env s oid).trace .commit = true) →
      countAbort (run env s oid).trace = 0) := by
  rcases run_cases env s oid with ⟨e, _, h⟩ | ⟨r, e, _, h⟩ | ⟨r, e, _, h⟩ | ⟨r, e, _, h⟩ |
    ⟨r, e, _, h⟩ | ⟨r, e, _, h⟩ | ⟨r, us, _, _, h⟩
  all_goals rw [h]
  all_goals simp [failed, succeeded, countAbort, afterFailure, responses, Event.step, Event.err]

/-- C2 (witness): a debit that fails with store error `"a"`. -/
theorem abort_once_before_failure_response_witness :
    countAbort (run (envDebitFault "a") storeZero 0).trace = 1 ∧
    ∃ msg, afterFailure (run (envDebitFault "a") storeZero 0).trace
        = [.abortTransaction, .json 500 "error" msg, .endSession] ∧
      responses (run (envDebitFault "a") storeZero 0).trace = [(500, "error", msg)] :=
  (abort_once_before_failure_response (envDebitFault "a") storeZero 0).1 (Or.inl (by decide))

/-- C3: the handler writes exactly one response, and its status is 400, 200 or
500.  It is 400 exactly when the request body fails to parse; 200 exactly when
the body parses and session start, transaction start, debit, insert and commit
all succeed (no call is made to fail and the store accepts the increment);
500 exactly when the body parses and one of these five steps fails.  The same
holds read on the log of the run: 200 exactly when all five calls are logged
without error, 500 exactly when one of them is logged with an error. -/
theorem one_response_with_status (env : Env) (s : Store) (oid : ObjectID) :
    ∃ st key msg, responses (run env s oid).trace = [(st, key, msg)] ∧
      (st = 400 ∨ st = 200 ∨ st = 500) ∧
      (st = 400 ↔ ∃ e, env.body = .error e) ∧
      (st = 200 ↔ ∃ r, env.body = .ok r ∧ env.faults = noFaults ∧
        ∃ us, incBalance s.users r.UserID (goNeg r.Amount) = .ok us) ∧
      (st = 500 ↔ ∃ r, env.body = .ok r ∧
        (env.faults.startSession ≠ .none ∨
         env.faults.startTransaction ≠ .none ∨
         env.faults.updateOne ≠ .none ∨
         (∃ e, incBalance s.users r.UserID (goNeg r.Amount) = .error e) ∨
         env.faults.insertOne ≠ .none ∨
         env.faults.commitTransaction ≠ .none)) ∧
      (st = 200 ↔ (∃ r, env.body = .ok r) ∧
        succeeded (run env s oid).trace .startSession = true ∧
        succeeded (run env s oid).trace .startTransaction = true ∧
        succeeded (run env s oid).trace .debit = true ∧
        succeeded (run env s oid).trace .insert = true ∧
        succeeded (run env s oid).trace .commit = true) ∧
      (st = 500 ↔ (∃ r, env.body = .ok r) ∧
        (failed (run env s oid).trace .startSession = true ∨
         failed (run env s oid).trace .startTransaction = true ∨
         failed (run env s oid).trace .debit = true ∨
         failed (run env s oid).trace .insert = true ∨
         failed (run env s oid).trace .commit = true)) := by
  obtain ⟨body, ⟨f1, f2, f3, f4, f5⟩, now⟩ := env
  cases body with
  | error e =>
    rw [run_bindErr _ s oid e rfl]
    simp [responses, failed, succeeded, Event.step, Event.err]
  | ok r =>
    cases f1 with
    | some e =>
      rw [run_sessionErr _ s oid r e rfl rfl]
      simp [responses, failed, succeeded, Event.step, Event.err, noFaults]
    | none =>
      cases f2 with
      | some e =>
        rw [run_txnErr _ s oid r e rfl rfl rfl]
        simp [responses, failed, succeeded, Event.step, Event.err, noFaults]
      | none =>
        cases f3 with
        | some e =>
          rw [run_debitFault _ s oid r e rfl rfl rfl rfl]
          simp [responses, failed, succeeded, Event.step, Event.err, noFaults]
        | none =>
          cases hi : incBalance s.users r.UserID (goNeg r.Amount) with
          | error e =>
            rw [run_debitReject _ s oid r e rfl rfl rfl rfl hi]
            simp [responses, failed, succeeded, Event.step, Event.err, noFaults, hi]
          | ok us =>
            cases f4 with
            | some e =>
              rw [run_insertErr _ s oid r us e rfl rfl rfl rfl hi rfl]
              simp [responses, failed, succeeded, Event.step, Event.err, noFaults, hi]
            | none =>
              cases f5 with
              | some e =>
                rw [run_commitErr _ s oid r us e rfl rfl rfl rfl hi rfl rfl]
                simp [responses, failed, succeeded, Event.step, Event.err, noFaults, hi]
              | none =>
                rw [run_success _ s oid r us rfl rfl rfl rfl hi rfl rfl]
                simp [responses, failed, succeeded, Event.step, Event.err, noFaults, hi]

/-- C3 (witness): a request served without fault is answered 200, and one
whose transaction cannot be started is answered 500. -/
theorem one_response_with_status_witness :
    (∃ st key msg, responses (run (envOk 1 50) storeTen 0).trace = [(st, key, msg)] ∧ st = 200) ∧
    (∃ st key msg, responses (run envTxnFault storeZero 0).trace = [(st, key, msg)] ∧ st = 500) := by
  constructor
  · obtain ⟨st, key, msg, h, _, _, h200, _⟩ := one_response_with_status (envOk 1 50) storeTen 0
    exact ⟨st, key, msg, h, h200.2 ⟨⟨1, 50⟩, rfl, rfl, _, rfl⟩⟩
  · obtain ⟨st, key, msg, h, _, _, _, h500, _⟩ := one_response_with_status envTxnFault storeZero 0
    exact ⟨st, key, msg, h, h500.2 ⟨⟨1, 5⟩, rfl, Or.inr (Or.inl (by decide))⟩⟩

/-- C4: `EndSession` is called exactly once when the session was started and
never otherwise; when it is called it is the last thing the handler does, and
no session is open when the handler returns. -/
theorem session_ended_exactly_once (env : Env) (s : Store) (oid : ObjectID) :
    countEndSession (run env s oid).trace
      = (if succeeded (run env s oid).trace .startSession = true then 1 else 0) ∧
    (if succeeded (run env s oid).trace .startSession = true
      then (run env s oid).trace.getLast? = some .endSession
      else True) ∧
    (run env s oid).sessionOpen = false := by
  rcases run_cases env s oid with ⟨e, _, h⟩ | ⟨r, e, _, h⟩ | ⟨r, e, _, h⟩ | ⟨r, e, _, h⟩ |
    ⟨r, e, _, h⟩ | ⟨r, e, _, h⟩ | ⟨r, us, _, _, h⟩
  all_goals rw [h]
  all_goals simp [succeeded, countEndSession, Event.step, Event.err]

/-- C5 (counterexample): when the session opens and `StartTransaction` fails,
the run leaves `Idle` and finishes in `SessionOpen`: no `AbortTransaction` is
called, and the state is neither `Committed` nor `Aborted`. -/
theorem phase_counterexample :
    succeeded (run envTxnFault storeZero 0).trace .startSession = true ∧
    phaseAfter (run envTxnFault storeZero 0).trace = .SessionOpen ∧
    countAbort (run envTxnFault storeZero 0).trace = 0 ∧
    phaseAfter (run envTxnFault storeZero 0).trace ≠ .Committed ∧
    phaseAfter (run envTxnFault storeZero 0).trace ≠ .Aborted := by
  decide

/-- C5 (amended): every run that starts a transaction finishes in `Committed`
or in `Aborted`; the run in which the session opens and starting the
transaction fails finishes in `SessionOpen`, with nothing aborted and the
session ended. -/
theorem phase_terminal_once_transaction_started (env : Env) (s : Store) (oid : ObjectID) :
    (succeeded (run env s oid).trace .startTransaction = true →
      phaseAfter (run env s oid).trace = .Committed ∨
      phaseAfter (run env s oid).trace = .Aborted) ∧
    (failed (run env s oid).trace .startTransaction = true →
      phaseAfter (run env s oid).trace = .SessionOpen ∧
      countAbort (run env s oid).trace = 0 ∧
      countEndSession (run env s oid).trace = 1) := by
  rcases run_cases env s oid with ⟨e, _, h⟩ | ⟨r, e, _, h⟩ | ⟨r, e, _, h⟩ | ⟨r, e, _, h⟩ |
    ⟨r, e, _, h⟩ | ⟨r, e, _, h⟩ | ⟨r, us, _, _, h⟩
  all_goals rw [h]
  all_goals simp [failed, succeeded, phaseAfter, Phase.step, countAbort, countEndSession,
    Event.step, Event.err]

/-- C5 (witness): a request served without fault finishes in `Committed`. -/
theorem phase_terminal_once_transaction_started_witness :
    phaseAfter (run (envOk 1 50) storeTen 0).trace = .Committed ∨
    phaseAfter (run (envOk 1 50) storeTen 0).trace = .Aborted :=
  (phase_terminal_once_transaction_started (envOk 1 50) storeTen 0).1 (by decide)

/-- C6 (the code at the failing input): two runs whose debit fails, with
store errors `"a"` and `"b"`, fail at the same step and return different
response bodies: on this path alone the text of the store error is part of the
message. -/
theorem generic_error_counterexample :
    firstFailure (run (envDebitFault "a") storeZero 0).trace = some (.debit, "a") ∧
    firstFailure (run (envDebitFault "b") storeZero 0).trace = some (.debit, "b") ∧
    responses (run (envDebitFault "a") storeZero 0).trace
      = [(500, "error", "Failed to update user balance: a")] ∧
    responses (run (envDebitFault "b") storeZero 0).trace
      = [(500, "error", "Failed to update user balance: b")] ∧
    responses (run (envDebitFault "a") storeZero 0).trace
      ≠ responses (run (envDebitFault "b") storeZero 0).trace := by
  decide

/-- The sibling failure paths of the debit: two runs that fail at the same
step other than the debit (session start, transaction start, insert or commit)
return identical responses whatever the store errors are; a run that fails at
the debit returns the text `Failed to update user balance: ` followed by the
text of the store error. -/
theorem generic_error_except_debit (env₁ env₂ : Env) (s₁ s₂ : Store) (oid₁ oid₂ : ObjectID) :
    (∀ st e₁ e₂, st ≠ Step.debit →
      firstFailure (run env₁ s₁ oid₁).trace = some (st, e₁) →
      firstFailure (run env₂ s₂ oid₂).trace = some (st, e₂) →
      responses (run env₁ s₁ oid₁).trace = responses (run env₂ s₂ oid₂).trace) ∧
    (∀ e, firstFailure (run env₁ s₁ oid₁).trace = some (.debit, e) →
      responses (run env₁ s₁ oid₁).trace
        = [(500, "error", "Failed to update user balance: " ++ e)]) := by
  constructor
  · intro st e₁ e₂ hst
    rcases run_cases env₁ s₁ oid₁ with ⟨e, _, h⟩ | ⟨r, e, _, h⟩ | ⟨r, e, _, h⟩ | ⟨r, e, _, h⟩ |
      ⟨r, e, _, h⟩ | ⟨r, e, _, h⟩ | ⟨r, us, _, _, h⟩ <;>
    rcases run_cases env₂ s₂ oid₂ with ⟨e', _, h'⟩ | ⟨r', e', _, h'⟩ | ⟨r', e', _, h'⟩ |
      ⟨r', e', _, h'⟩ | ⟨r', e', _, h'⟩ | ⟨r', e', _, h'⟩ | ⟨r', us', _, _, h'⟩ <;>
    rw [h, h'] <;>
    simp [firstFailure, responses, Event.step, Event.err] <;>
    intro h1 <;> subst h1 <;> simp at hst ⊢
  · intro e0
    rcases run_cases env₁ s₁ oid₁ with ⟨e, _, h⟩ | ⟨r, e, _, h⟩ | ⟨r, e, _, h⟩ | ⟨r, e, _, h⟩ |
      ⟨r, e, _, h⟩ | ⟨r, e, _, h⟩ | ⟨r, us, _, _, h⟩ <;>
    rw [h] <;>
    simp [firstFailure, responses, Event.step, Event.err]
    intro he
    rw [he]

/-- Two failed transaction starts with different store errors are answered alike. -/
theorem generic_error_except_debit_witness :
    responses (run envTxnFault storeZero 0).trace
      = responses (run ⟨.ok ⟨2, 9⟩, ⟨.none, some "down", .none, .none, .none⟩, 3⟩ storeTen 4).trace :=
  (generic_error_except_debit envTxnFault
      ⟨.ok ⟨2, 9⟩, ⟨.none, some "down", .none, .none, .none⟩, 3⟩ storeZero storeTen 0 4).1
    .startTransaction "busy" "down" (by decide) (by decide) (by decide)

/-- C7: for an existing user with balance `b` and an amount `a > b` (both Go
`int`), when no store call of the run fails the handler answers 200 and the
committed balance of the user is `b - a`, a negative number: no sufficiency
check blocks the order. -/
theorem unconditional_debit (env : Env) (s : Store) (oid : ObjectID) (uid : ObjectID)
    (a b : Int) (hbody : env.body = .ok ⟨uid, a⟩)
    (hu : balanceOf s.users uid = some b) (ha : isGoInt a) (hb : isGoInt b) (hab : a > b)
    (hno : ∀ st, failed (run env s oid).trace st = false) :
    status (run env s oid) = some 200 ∧
    balanceOf (run env s oid).committed.users uid = some (b - a) ∧
    b - a < 0 := by
  have hm : a ≠ minInt := by
    intro h
    unfold isGoInt at hb
    omega
  have hg : goNeg a = -a := goNeg_eq_neg a ha hm
  rcases run_cases env s oid with ⟨e, hb1, h⟩ | ⟨r, e, hb1, h⟩ | ⟨r, e, hb1, h⟩ |
    ⟨r, e, hb1, h⟩ | ⟨r, e, hb1, h⟩ | ⟨r, e, hb1, h⟩ | ⟨r, us, hb1, hi, h⟩
  · rw [hbody] at hb1
    cases hb1
  · have := hno .startSession
    rw [h] at this
    simp [failed, Event.step, Event.err] at this
  · have := hno .startTransaction
    rw [h] at this
    simp [failed, Event.step, Event.err] at this
  · have := hno .debit
    rw [h] at this
    simp [failed, Event.step, Event.err] at this
  · have := hno .insert
    rw [h] at this
    simp [failed, Event.step, Event.err] at this
  · have := hno .commit
    rw [h] at this
    simp [failed, Event.step, Event.err] at this
  · rw [hbody] at hb1
    injection hb1 with hb1
    subst hb1
    rw [hg] at hi
    have hbal := (incBalance_balance s.users us uid (-a) b hu hi).2
    rw [h]
    refine ⟨by simp [status, responses], ?_, by omega⟩
    simpa [sub_eq_add_neg] using hbal

/-- C7 (witness): balance 10, amount 50: success and balance -40. -/
theorem unconditional_debit_witness :
    status (run (envOk 1 50) storeTen 0) = some 200 ∧
    balanceOf (run (envOk 1 50) storeTen 0).committed.users 1 = some (10 - 50) ∧
    (10 : Int) - 50 < 0 :=
  unconditional_debit (envOk 1 50) storeTen 0 1 50 10 rfl rfl (by decide) (by decide)
    (by decide) (fun st => by cases st <;> decide)

/-- C8: for a `userID` that matches no user document, when no store call
fails the handler answers 200, the debit is logged as successful, the user
collection is unchanged and exactly one order with that `userID` and amount is
added. -/
theorem missing_user_still_orders (env : Env) (s : Store) (oid : ObjectID) (uid : ObjectID)
    (a : Int) (hbody : env.body = .ok ⟨uid, a⟩) (hf : env.faults = noFaults)
    (hu : ∀ u ∈ s.users, u.ID ≠ uid) :
    status (run env s oid) = some 200 ∧
    succeeded (run env s oid).trace .debit = true ∧
    (run env s oid).committed.users = s.users ∧
    (run env s oid).committed.orders = s.orders ++ [⟨oid, uid, a, env.now⟩] := by
  have hi := incBalance_no_match s.users uid (goNeg a) hu
  have hrun := run_success env s oid ⟨uid, a⟩ s.users hbody (by simp [hf, noFaults])
    (by simp [hf, noFaults]) (by simp [hf, noFaults]) hi (by simp [hf, noFaults])
    (by simp [hf, noFaults])
  rw [hrun]
  simp [status, responses, succeeded, Event.step, Event.err, newOrder]

/-- C8 (witness): an order for user 2 on a store that only knows user 1. -/
theorem missing_user_still_orders_witness :
    status (run (envOk 2 50) storeTen 0) = some 200 ∧
    succeeded (run (envOk 2 50) storeTen 0).trace .debit = true ∧
    (run (envOk 2 50) storeTen 0).committed.users = storeTen.users ∧
    (run (envOk 2 50) storeTen 0).committed.orders = storeTen.orders ++ [⟨0, 2, 50, 7⟩] :=
  missing_user_still_orders (envOk 2 50) storeTen 0 2 50 rfl rfl (by decide)

/-- C9: the handler is not idempotent: for an existing user with balance `b`
and an amount `a` (both Go `int`), two successive successful calls with the
same `(userID, a)` leave the balance at `b - 2a` and append two order records
with that `userID` and amount, which differ in their identifiers. -/
theorem two_calls_two_debits (env₁ env₂ : Env) (s : Store) (oid uid : ObjectID) (a b : Int)
    (h₁ : env₁.body = .ok ⟨uid, a⟩) (h₂ : env₂.body = .ok ⟨uid, a⟩)
    (hu : balanceOf s.users uid = some b) (ha : isGoInt a) (hb : isGoInt b)
    (hs₁ : status (run env₁ s oid) = some 200)
    (hs₂ : status (run env₂ (run env₁ s oid).committed (run env₁ s oid).nextOid) = some 200) :
    balanceOf (run env₂ (run env₁ s oid).committed (run env₁ s oid).nextOid).committed.users uid
      = some (b - 2 * a) ∧
    (run env₂ (run env₁ s oid).committed (run env₁ s oid).nextOid).committed.orders
      = s.orders ++ [⟨oid, uid, a, env₁.now⟩, ⟨oid + 1, uid, a, env₂.now⟩] ∧
    (⟨oid, uid, a, env₁.now⟩ : Order) ≠ ⟨oid + 1, uid, a, env₂.now⟩ := by
  rcases run_cases env₁ s oid with ⟨e, hb1, h⟩ | ⟨r, e, hb1, h⟩ | ⟨r, e, hb1, h⟩ |
    ⟨r, e, hb1, h⟩ | ⟨r, e, hb1, h⟩ | ⟨r, e, hb1, h⟩ | ⟨r, us, hb1, hi, h⟩
  all_goals rw [h] at hs₁
  all_goals try (simp [status, responses] at hs₁; done)
  rw [h₁] at hb1
  injection hb1 with hb1
  subst hb1
  rw [h] at hs₂ ⊢
  simp only at hs₂ ⊢
  rcases run_cases env₂ ⟨us, s.orders ++ [newOrder env₁ ⟨uid, a⟩ oid]⟩ (oid + 1) with
    ⟨e, hb2, h'⟩ | ⟨r, e, hb2, h'⟩ | ⟨r, e, hb2, h'⟩ | ⟨r, e, hb2, h'⟩ | ⟨r, e, hb2, h'⟩ |
    ⟨r, e, hb2, h'⟩ | ⟨r, us', hb2, hi', h'⟩
  all_goals rw [h'] at hs₂
  all_goals try (simp [status, responses] at hs₂; done)
  rw [h₂] at hb2
  injection hb2 with hb2
  subst hb2
  rw [h']
  obtain ⟨hr1, hbal1⟩ := incBalance_balance s.users us uid (goNeg a) b hu hi
  obtain ⟨hr2, hbal2⟩ := incBalance_balance us us' uid (goNeg a) (b + goNeg a) hbal1 hi'
  have hm : a ≠ minInt := by
    intro hmin
    subst hmin
    have hg : goNeg minInt = minInt := by decide
    rw [hg] at hr2
    unfold isGoInt minInt maxInt at hr2 hb
    omega
  have hg : goNeg a = -a := goNeg_eq_neg a ha hm
  rw [hg] at hbal2
  refine ⟨?_, by simp [newOrder], by simp⟩
  simp only [hbal2]
  congr 1
  ring

/-- C9 (witness): user 1 with balance 10 orders 50 twice. -/
theorem two_calls_two_debits_witness :
    balanceOf (run (envOk 1 50) (run (envOk 1 50) storeTen 0).committed
        (run (envOk 1 50) storeTen 0).nextOid).committed.users 1
      = some (10 - 2 * 50) ∧
    (run (envOk 1 50) (run (envOk 1 50) storeTen 0).committed
        (run (envOk 1 50) storeTen 0).nextOid).committed.orders
      = storeTen.orders ++ [⟨0, 1, 50, 7⟩, ⟨0 + 1, 1, 50, 7⟩] ∧
    (⟨0, 1, 50, 7⟩ : Order) ≠ ⟨0 + 1, 1, 50, 7⟩ :=
  two_calls_two_debits (envOk 1 50) (envOk 1 50) storeTen 0 1 50 10 rfl rfl rfl (by decide)
    (by decide) (by decide) (by decide)

/-- C10 (counterexample): for the amount `-2^63` the delta passed to the
increment is `-2^63` itself: amount plus delta is `-2^64`, not 0, and the
negative amount yields a negative delta. -/
theorem negation_counterexample :
    isGoInt minInt ∧
    passedDelta (run (envOk 1 minInt) storeZero 0).trace = some minInt ∧
    minInt + minInt = -18446744073709551616 ∧
    minInt + minInt ≠ 0 ∧
    minInt < 0 ∧ ¬ (0 < minInt) := by
  decide

/-- C10 (amended): once the transaction is started the handler passes one
delta to the balance increment; for every amount that is a Go `int` other than
`-2^63` that delta is the exact negation of the amount (their sum is 0, and a
negative amount yields a positive delta); for the amount `-2^63` the delta is
`-2^63`. -/
theorem delta_is_negation_above_minimum (env : Env) (s : Store) (oid : ObjectID)
    (r : PlaceOrderRequest) (hbody : env.body = .ok r) (hr : isGoInt r.Amount) :
    (succeeded (run env s oid).trace .startTransaction = true →
      ∃ d, passedDelta (run env s oid).trace = some d) ∧
    (∀ d, passedDelta (run env s oid).trace = some d →
      (r.Amount ≠ minInt → r.Amount + d = 0 ∧ (r.Amount < 0 → 0 < d)) ∧
      (r.Amount = minInt → d = minInt)) := by
  have key : ∀ d, d = goNeg r.Amount →
      (r.Amount ≠ minInt → r.Amount + d = 0 ∧ (r.Amount < 0 → 0 < d)) ∧
      (r.Amount = minInt → d = minInt) := by
    intro d hd
    subst hd
    constructor
    · intro hm
      rw [goNeg_eq_neg _ hr hm]
      constructor
      · omega
      · intro hneg
        omega
    · intro hmin
      rw [hmin]
      decide
  rcases run_cases env s oid with ⟨e, hb, h⟩ | ⟨r', e, hb, h⟩ | ⟨r', e, hb, h⟩ |
    ⟨r', e, hb, h⟩ | ⟨r', e, hb, h⟩ | ⟨r', e, hb, h⟩ | ⟨r', us, hb, _, h⟩
  all_goals rw [h]
  all_goals rw [hbody] at hb
  all_goals try (injection hb with hb; subst hb)
  all_goals simp [succeeded, passedDelta, Event.step, Event.err]
  all_goals exact key _ rfl

/-- C10 (witness): the amount 50 is passed as the delta -50. -/
theorem delta_is_negation_above_minimum_witness :
    (50 : Int) + (-50) = 0 ∧ ((50 : Int) < 0 → (0 : Int) < -50) :=
  ((delta_is_negation_above_minimum (envOk 1 50) storeTen 0 ⟨1, 50⟩ rfl (by decide)).2
    (-50) (by decide)).1 (by decide)

end OrderService
